import Mathlib

/-!
Shallow embedding of the committee-management / authentication module
(controllers `createCommittee`, `getCommittees`, `getCommittee`,
`updateCommittee`, `deleteCommittee`, `downloadFormationLetter` and the
auth controllers `register`, `login`, `protect`, `deleteUser`, ...).

Stateful code is modelled by explicit state passing: the user store and the
committee store are lists of records; each controller is a pure function
from request data and store state to an outcome record that carries the
HTTP-level result, the observable side effects (user-store lookups
performed, whether the record was saved, whether an uploaded file was
deleted) and the resulting store.
-/

namespace Tender

/-- Errors raised by the controllers (`AppError(message, statusCode)` in the
source). -/
structure AppError where
  message : String
  statusCode : Nat
deriving Repr, DecidableEq

/-- JavaScript values that can appear as a resolved member identifier
(`typeof m === 'string' ? m : (m.employeeId || '')`): strings, numbers,
booleans, null. -/
inductive JVal where
  | vstr : String → JVal
  | vnum : Int → JVal
  | vbool : Bool → JVal
  | vnull : JVal
deriving Repr, DecidableEq

/-- JavaScript truthiness of a `JVal`. -/
def JVal.truthy : JVal → Bool
  | .vstr s => s ≠ ""
  | .vnum n => n ≠ 0
  | .vbool b => b
  | .vnull => false

/-- The string content of a `JVal`, with `""` for non-strings (only applied
after the `typeof id === 'string'` validation has passed). -/
def JVal.asString : JVal → String
  | .vstr s => s
  | _ => ""

/-- One entry of the request's `members` array: either a plain string, or any
non-string value whose `employeeId` property is read (`m.employeeId` is the
given `JVal` when the property is present, `undefined` otherwise — numbers
and objects without the property behave identically). -/
inductive MemberInput where
  | mstr : String → MemberInput
  | mobj : Option JVal → MemberInput
deriving Repr, DecidableEq

/-- Line 29-31 of the committee controller:
`typeof m === 'string' ? m : (m.employeeId || '')`. -/
def resolveId : MemberInput → JVal
  | .mstr s => .vstr s
  | .mobj (some v) => if v.truthy then v else .vstr ""
  | .mobj none => .vstr ""

/-- Line 33 of the committee controller:
`typeof id === 'string' && id.trim() !== ''` — a string trims to nonempty
exactly when it contains a non-whitespace character. -/
def isValidId : JVal → Bool
  | .vstr s => !(s.toList.all Char.isWhitespace)
  | _ => false

/-- A persisted User record (the fields the committee and auth controllers
read). -/
structure User where
  _id : Nat
  name : String
  role : String
  email : String
  employeeId : String
  department : String
  designation : String
  phoneNumber : String
  password : String
  isActive : Bool
  otpEnabled : Bool
  passwordChangedAt : Option Nat
deriving Repr, DecidableEq

/-- A denormalized member snapshot stored inside a committee (lines 43-50). -/
structure MemberSnapshot where
  name : String
  role : String
  email : String
  employeeId : String
  department : String
  designation : String
deriving Repr, DecidableEq

/-- Metadata of an uploaded file (`req.file` / `formationLetter`). -/
structure FileMeta where
  filename : String
  path : String
  originalname : String
  mimetype : String
  size : Nat
deriving Repr, DecidableEq

/-- A persisted Committee record. -/
structure Committee where
  _id : Nat
  name : String
  purpose : String
  formationDate : String
  specificationSubmissionDate : String
  reviewDate : String
  schedule : String
  members : List MemberSnapshot
  createdBy : Nat
  formationLetter : Option FileMeta
  shouldNotify : Option String
  approvalStatus : Option String
deriving Repr, DecidableEq

/-- `User.findOne({ employeeId })` on the user store. -/
def findUserByEmployeeId (users : List User) (eid : String) : Option User :=
  users.find? (fun u => u.employeeId == eid)

/-- The snapshot pushed for a resolved user (lines 43-50 and 252-259). -/
def snapshotOf (u : User) : MemberSnapshot :=
  { name := u.name, role := u.role, email := u.email, employeeId := u.employeeId,
    department := u.department, designation := u.designation }

/-- The member-resolution loop (lines 37-51 / 244-260): one `User.findOne`
per employee ID, failing with a 404 naming the first ID with no user.  The
second component records the employee IDs actually looked up in the user
store, in order. -/
def resolveMembersAux (users : List User) :
    List String → Except AppError (List MemberSnapshot) × List String
  | [] => (.ok [], [])
  | eid :: rest =>
    match findUserByEmployeeId users eid with
    | none =>
      (.error ⟨"User with employee ID " ++ eid ++ " not found", 404⟩, [eid])
    | some u =>
      let r := resolveMembersAux users rest
      ((r.1).map (fun tail => snapshotOf u :: tail), eid :: r.2)

/-- The employee-ID strings a members array resolves to. -/
def memberIdStrings (memberData : List MemberInput) : List String :=
  (memberData.map resolveId).map JVal.asString

/-- Member processing for a non-empty members array (lines 29-51 / 236-260):
map each entry to an identifier, reject the whole list with a 400 before any
user-store lookup when some identifier is not a non-empty string, otherwise
resolve each ID. -/
def processMembers (users : List User) (memberData : List MemberInput) :
    Except AppError (List MemberSnapshot) × List String :=
  if (memberData.map resolveId).all isValidId then
    resolveMembersAux users (memberIdStrings memberData)
  else
    (.error ⟨"All member IDs must be non-empty strings", 400⟩, [])

/-- The body of a create-committee request. -/
structure CreateBody where
  name : String
  purpose : String
  formationDate : String
  specificationSubmissionDate : String
  reviewDate : String
  schedule : String
  members : Option (List MemberInput)
  shouldNotify : Option String
deriving Repr, DecidableEq

/-- A create-committee request: parsed body, optional uploaded file
(`req.file`), and the authenticated user's id (`req.user._id`). -/
structure CreateReq where
  body : CreateBody
  file : Option FileMeta
  userId : Nat
deriving Repr, DecidableEq

/-- Observable outcome of `createCommittee`: the HTTP-level result, the
user-store lookups performed, whether `committee.save()` committed, whether
the uploaded file was deleted by the catch block, and the committee store
afterwards. -/
structure CreateOutcome where
  result : Except AppError Committee
  userLookups : List String
  saved : Bool
  fileDeleted : Bool
  store : List Committee
deriving Repr

/-- Member processing step of `createCommittee` (lines 24-52): skipped when
`members` is absent or empty. -/
def createMemberStep (users : List User) (b : CreateBody) :
    Except AppError (List MemberSnapshot) × List String :=
  match b.members with
  | some ms => if 0 < ms.length then processMembers users ms else (.ok [], [])
  | none => (.ok [], [])

/-- `createCommittee` (lines 10-95).  `newId` is the id the store assigns to
the new document; `saveError` is `some e` when `committee.save()` throws
(store failure), in which case the catch block (lines 87-94) deletes the
uploaded file when one is present and forwards the thrown error.  The
member-validation and missing-user branches return via `next(...)` without
throwing, so they never reach the catch block. -/
def createCommittee (req : CreateReq) (users : List User)
    (store : List Committee) (newId : Nat) (saveError : Option AppError) :
    CreateOutcome :=
  let step := createMemberStep users req.body
  let ls := step.2
  match step.1 with
  | .error e =>
    { result := .error e, userLookups := ls, saved := false,
      fileDeleted := false, store := store }
  | .ok snaps =>
    let committee : Committee :=
      { _id := newId, name := req.body.name, purpose := req.body.purpose,
        formationDate := req.body.formationDate,
        specificationSubmissionDate := req.body.specificationSubmissionDate,
        reviewDate := req.body.reviewDate, schedule := req.body.schedule,
        members := snaps, createdBy := req.userId,
        formationLetter := req.file, shouldNotify := none,
        approvalStatus := none }
    match saveError with
    | some e =>
      { result := .error e, userLookups := ls, saved := false,
        fileDeleted := req.file.isSome, store := store }
    | none =>
      { result := .ok committee, userLookups := ls, saved := true,
        fileDeleted := false, store := committee :: store }

/-- The body of an update-committee request.  `none` models an `undefined`
field, which `Object.keys(allowedUpdates).forEach(... delete ...)` removes
from the update (lines 213-227).  `formationLetter` may be supplied but is
never part of `allowedUpdates` (lines 264-267 only log a warning). -/
structure UpdateBody where
  name : Option String
  purpose : Option String
  formationDate : Option String
  specificationSubmissionDate : Option String
  reviewDate : Option String
  schedule : Option String
  members : Option (List MemberInput)
  shouldNotify : Option String
  approvalStatus : Option String
  formationLetter : Option FileMeta
deriving Repr, DecidableEq

/-- Member processing step of `updateCommittee` (lines 229-262): when a
non-empty members array is supplied it is resolved exactly as in create and
replaces `allowedUpdates.members`; a supplied empty array is assigned as-is
(the `length > 0` guard skips resolution); an absent field leaves the stored
members untouched (`none` here). -/
def updateMemberStep (users : List User) (b : UpdateBody) :
    Except AppError (Option (List MemberSnapshot)) × List String :=
  match b.members with
  | some ms =>
    if 0 < ms.length then
      let r := processMembers users ms
      ((r.1).map some, r.2)
    else (.ok (some []), [])
  | none => (.ok none, [])

/-- `Object.assign(committee, allowedUpdates)` (line 269): each defined
whitelisted field overwrites the stored one; everything else — in particular
`_id`, `createdBy` and `formationLetter` — is untouched. -/
def applyUpdates (c : Committee) (b : UpdateBody)
    (snaps : Option (List MemberSnapshot)) : Committee :=
  { c with
    name := match b.name with | some v => v | none => c.name,
    purpose := match b.purpose with | some v => v | none => c.purpose,
    formationDate :=
      match b.formationDate with | some v => v | none => c.formationDate,
    specificationSubmissionDate :=
      match b.specificationSubmissionDate with
      | some v => v
      | none => c.specificationSubmissionDate,
    reviewDate := match b.reviewDate with | some v => v | none => c.reviewDate,
    schedule := match b.schedule with | some v => v | none => c.schedule,
    members := match snaps with | some l => l | none => c.members,
    shouldNotify :=
      match b.shouldNotify with | some v => some v | none => c.shouldNotify,
    approvalStatus :=
      match b.approvalStatus with
      | some v => some v
      | none => c.approvalStatus }

/-- Observable outcome of `updateCommittee`. -/
structure UpdateOutcome where
  result : Except AppError Committee
  userLookups : List String
  saved : Bool
  store : List Committee
deriving Repr

/-- `updateCommittee` (lines 198-297).  `saveError = some e` models
`committee.save()` throwing; the surrounding catch (line 294-296) converts
any thrown error into `AppError('Failed to update committee', 500)`, while
the `return next(...)` branches keep their own status codes. -/
def updateCommittee (cid : Nat) (b : UpdateBody) (users : List User)
    (store : List Committee) (saveError : Option AppError) : UpdateOutcome :=
  match store.find? (fun c => c._id == cid) with
  | none =>
    { result := .error ⟨"No committee found with that ID", 404⟩,
      userLookups := [], saved := false, store := store }
  | some c =>
    let step := updateMemberStep users b
    let ls := step.2
    match step.1 with
    | .error e =>
      { result := .error e, userLookups := ls, saved := false, store := store }
    | .ok snaps =>
      let updated := applyUpdates c b snaps
      match saveError with
      | some _ =>
        { result := .error ⟨"Failed to update committee", 500⟩,
          userLookups := ls, saved := false, store := store }
      | none =>
        { result := .ok updated, userLookups := ls, saved := true,
          store := store.map (fun c2 => if c2._id == cid then updated else c2) }

/-- A signed session token: payload (`id`), issued-at timestamp (`iat`,
stamped by `jwt.sign`), optional expiry claim (`exp`, present only when
`expiresIn` was passed to `jwt.sign`), and whether the signature verifies
against the server secret. -/
structure Token where
  id : Nat
  iat : Nat
  exp : Option Nat
  validSig : Bool
deriving Repr, DecidableEq

/-- Model of the external jsonwebtoken library's `jwt.verify`: throws on a
bad signature or on an expired `exp` claim; a token carrying no `exp` claim
is never checked for expiry. -/
def jwtVerify (t : Token) (now : Nat) : Except String Token :=
  if t.validSig then
    match t.exp with
    | some e => if e ≤ now then .error "jwt expired" else .ok t
    | none => .ok t
  else .error "invalid signature"

/-- The successful response of `createSendToken` (lines 13-28): status code,
the signed token sent in the body, and the expiry of the `jwt` cookie. -/
structure AuthResponse where
  statusCode : Nat
  token : Token
  cookieExpires : Nat
deriving Repr, DecidableEq

/-- `createSendToken` (lines 13-28): signs `{ id: user._id }` with no
`expiresIn` option — so the token carries no `exp` claim — and sets a `jwt`
cookie expiring in one day (`Date.now() + 24 * 60 * 60 * 1000`). -/
def createSendToken (u : User) (statusCode : Nat) (now : Nat) : AuthResponse :=
  { statusCode := statusCode,
    token := { id := u._id, iat := now, exp := none, validSig := true },
    cookieExpires := now + 24 * 60 * 60 * 1000 }

/-- JavaScript falsiness of an optional request string: `!x` is true when
the field is `undefined` or the empty string. -/
def strFalsy : Option String → Bool
  | none => true
  | some s => s == ""

/-- Modelled from the spec: `correctPassword` lives on the User model
(`userModel.js`, not among the given sources); per the spec it verifies the
candidate password against the stored hashed credential, modelled here as
comparison with the stored credential. -/
def correctPassword (candidate stored : String) : Bool :=
  candidate == stored

/-- `User.findOne({ email })`. -/
def findUserByEmail (users : List User) (email : String) : Option User :=
  users.find? (fun u => u.email == email)

/-- `login` (lines 56-88): 400 when email or password is missing, 401 for an
unknown email or wrong password, 401 for a deactivated account, otherwise
`createSendToken(user, 200)`. -/
def login (email password : Option String) (users : List User) (now : Nat) :
    Except AppError AuthResponse :=
  if strFalsy email || strFalsy password then
    .error ⟨"Please provide email and password!", 400⟩
  else
    match findUserByEmail users (email.getD "") with
    | none => .error ⟨"Incorrect email or password", 401⟩
    | some u =>
      if !correctPassword (password.getD "") u.password then
        .error ⟨"Incorrect email or password", 401⟩
      else if !u.isActive then
        .error ⟨"Your account has been deactivated", 401⟩
      else
        .ok (createSendToken u 200 now)

/-- The token issued by a login attempt: none on any failure (the handler
returns through `next(...)` before `createSendToken` runs). -/
def loginIssuedToken (r : Except AppError AuthResponse) : Option Token :=
  match r with
  | .ok a => some a.token
  | .error _ => none

/-- Modelled from the spec: `changedPasswordAfter` lives on the User model
(`userModel.js`, not among the given sources); per the spec it reports
whether the token's issued-at timestamp precedes the user's last password
change. -/
def changedPasswordAfter (u : User) (iat : Nat) : Bool :=
  match u.passwordChangedAt with
  | some t => iat < t
  | none => false

/-- `User.findById` on the user store. -/
def findUserById (users : List User) (uid : Nat) : Option User :=
  users.find? (fun u => u._id == uid)

/-- `protect` (lines 90-129): takes the token from the authorization header
when present, else from the `jwt` cookie; 401 when absent; 401 when
`jwt.verify` throws (invalid or expired); 401 when the user no longer
exists; 401 when the password changed after the token was issued; otherwise
attaches the resolved user. -/
def protect (headerToken cookieToken : Option Token) (now : Nat)
    (users : List User) : Except AppError User :=
  match (match headerToken with | some t => some t | none => cookieToken) with
  | none => .error ⟨"Authentication required", 401⟩
  | some t =>
    match jwtVerify t now with
    | .error _ => .error ⟨"Invalid or expired token", 401⟩
    | .ok decoded =>
      match findUserById users decoded.id with
      | none => .error ⟨"User no longer exists", 401⟩
      | some currentUser =>
        if changedPasswordAfter currentUser decoded.iat then
          .error ⟨"Password changed - please log in again", 401⟩
        else
          .ok currentUser

/-- The body of a register request; `none` models an absent field. -/
structure RegisterBody where
  name : Option String
  email : Option String
  password : Option String
  role : Option String
  employeeId : Option String
  department : Option String
  phoneNumber : Option String
  designation : Option String
  isActive : Option Bool
  otpEnabled : Option Bool
deriving Repr, DecidableEq

/-- JavaScript `x || d` for an optional boolean field: the field's value
when it is truthy, else the default. -/
def jsOrBool (v : Option Bool) (dflt : Bool) : Bool :=
  match v with
  | some b => if b then b else dflt
  | none => dflt

/-- The User document handed to `User.create` by `register` (lines 30-42);
in particular `isActive: req.body.isActive || true` and
`otpEnabled: req.body.otpEnabled || false`. -/
def registerUserDoc (b : RegisterBody) (newId : Nat) : User :=
  { _id := newId, name := b.name.getD "", email := b.email.getD "",
    password := b.password.getD "", role := b.role.getD "",
    employeeId := b.employeeId.getD "", department := b.department.getD "",
    phoneNumber := b.phoneNumber.getD "",
    designation := b.designation.getD "",
    isActive := jsOrBool b.isActive true,
    otpEnabled := jsOrBool b.otpEnabled false,
    passwordChangedAt := none }

/-- `register` (lines 30-54): creates the user document and answers with
`createSendToken(newUser, 201)`. -/
def register (b : RegisterBody) (newId : Nat) (now : Nat) :
    User × AuthResponse :=
  let u := registerUserDoc b newId
  (u, createSendToken u 201 now)

/-- `deleteUser` (lines 320-350): 404 when the target does not exist, 403
when the target is the requesting user's own account (store untouched),
otherwise `User.findByIdAndDelete` removes the record and the response
status is 204. -/
def deleteUser (userId : Nat) (reqUser : User) (users : List User) :
    Except AppError Nat × List User :=
  match findUserById users userId with
  | none => (.error ⟨"No user found with that ID", 404⟩, users)
  | some u =>
    if u._id == reqUser._id then
      (.error ⟨"You cannot delete your own account", 403⟩, users)
    else
      (.ok 204, users.filter (fun x => x._id != userId))

/-! Helper lemmas shared by the claim theorems. -/

/-- When some id in the list has no matching user, the resolution loop fails
with a 404 naming a missing id from the list. -/
theorem resolveMembersAux_missing (users : List User) (ids : List String)
    (h : ∃ eid ∈ ids, findUserByEmployeeId users eid = none) :
    ∃ eid, eid ∈ ids ∧ findUserByEmployeeId users eid = none ∧
      (resolveMembersAux users ids).1 =
        .error ⟨"User with employee ID " ++ eid ++ " not found", 404⟩ := by
  induction ids with
  | nil => simp at h
  | cons head rest ih =>
    cases hh : findUserByEmployeeId users head with
    | none =>
      exact ⟨head, List.mem_cons_self head rest, hh,
        by simp [resolveMembersAux, hh]⟩
    | some u =>
      obtain ⟨eid, hmem, hnone⟩ := h
      have hr : ∃ eid ∈ rest, findUserByEmployeeId users eid = none := by
        rcases List.mem_cons.mp hmem with h1 | h1
        · exact absurd hnone (by simp [h1, hh])
        · exact ⟨eid, h1, hnone⟩
      obtain ⟨e2, hm2, hn2, heq⟩ := ih hr
      refine ⟨e2, List.mem_cons_of_mem _ hm2, hn2, ?_⟩
      simp [resolveMembersAux, hh, heq, Except.map]

/-- When all resolved ids pass validation, the create member step is the
resolution loop on the id strings. -/
theorem createMemberStep_of_valid (users : List User) (b : CreateBody)
    (ms : List MemberInput) (hm : b.members = some ms) (hne : 0 < ms.length)
    (hvalid : (ms.map resolveId).all isValidId = true) :
    createMemberStep users b = resolveMembersAux users (memberIdStrings ms) := by
  simp [createMemberStep, hm, hne, processMembers, hvalid]

/-- On success `jwt.verify` returns the decoded token itself. -/
theorem jwtVerify_ok_eq (t : Token) (now : Nat) (d : Token)
    (h : jwtVerify t now = .ok d) : d = t := by
  unfold jwtVerify at h
  split at h
  · split at h
    · split at h
      · cases h
      · exact (Except.ok.inj h).symm
    · exact (Except.ok.inj h).symm
  · cases h

/-! Concrete fixtures used by the witness and counterexample theorems. -/

def sampleUser : User :=
  { _id := 1, name := "Alice", role := "staff", email := "alice@example.com",
    employeeId := "E100", department := "IT", designation := "Engineer",
    phoneNumber := "555", password := "pw", isActive := true,
    otpEnabled := false, passwordChangedAt := some 10 }

def sampleFile : FileMeta :=
  { filename := "letter.pdf", path := "uploads/letter.pdf",
    originalname := "letter.pdf", mimetype := "application/pdf", size := 1024 }

def sampleCreateBody : CreateBody :=
  { name := "Tender Committee", purpose := "Evaluate bids",
    formationDate := "2025-01-01", specificationSubmissionDate := "2025-02-01",
    reviewDate := "2025-03-01", schedule := "weekly",
    members := some [.mstr "E100", .mstr "E404"], shouldNotify := none }

def sampleCreateReq : CreateReq :=
  { body := sampleCreateBody, file := some sampleFile, userId := 9 }

def sampleCommittee : Committee :=
  { _id := 5, name := "Old Committee", purpose := "Old purpose",
    formationDate := "2024-01-01", specificationSubmissionDate := "2024-02-01",
    reviewDate := "2024-03-01", schedule := "monthly",
    members := [snapshotOf sampleUser], createdBy := 9,
    formationLetter := some sampleFile, shouldNotify := none,
    approvalStatus := some "pending" }

def adminUser : User :=
  { sampleUser with
      _id := 2, name := "Bob", email := "bob@example.com",
      employeeId := "E200", role := "admin" }

def renamedUser : User :=
  { sampleUser with name := "Alice Renamed", designation := "Manager" }

def otherCommittee : Committee :=
  { sampleCommittee with _id := 6, name := "Other Committee" }

def emptyUpdateBody : UpdateBody :=
  { name := none, purpose := none, formationDate := none,
    specificationSubmissionDate := none, reviewDate := none, schedule := none,
    members := none, shouldNotify := none, approvalStatus := none,
    formationLetter := none }

/-! Claim theorems. -/

/-- C1: a createCommittee request whose member list contains an employee ID
with no matching User record fails with a NotFoundError carrying status 404
and a message naming that employee ID, is never saved, and leaves the
committee store unchanged. -/
theorem createCommittee_unresolvable_member_404
    (req : CreateReq) (users : List User) (store : List Committee)
    (newId : Nat) (saveError : Option AppError) (ms : List MemberInput)
    (hm : req.body.members = some ms) (hne : 0 < ms.length)
    (hvalid : (ms.map resolveId).all isValidId = true)
    (hmissing : ∃ eid ∈ memberIdStrings ms,
      findUserByEmployeeId users eid = none) :
    ∃ eid, eid ∈ memberIdStrings ms ∧
      findUserByEmployeeId users eid = none ∧
      (createCommittee req users store newId saveError).result =
        .error ⟨"User with employee ID " ++ eid ++ " not found", 404⟩ ∧
      (createCommittee req users store newId saveError).saved = false ∧
      (createCommittee req users store newId saveError).store = store := by
  obtain ⟨eid, hmem, hnone, heq⟩ := resolveMembersAux_missing users _ hmissing
  have hstep := createMemberStep_of_valid users req.body ms hm hne hvalid
  exact ⟨eid, hmem, hnone, by simp [createCommittee, hstep, heq]⟩

/-- Witness for C1 at a concrete request: member list `["E100","E404"]`
against a store holding only employee `E100`. -/
theorem createCommittee_unresolvable_member_404_witness :
    ∃ eid, eid ∈ memberIdStrings [.mstr "E100", .mstr "E404"] ∧
      findUserByEmployeeId [sampleUser] eid = none ∧
      (createCommittee sampleCreateReq [sampleUser] [] 7 none).result =
        .error ⟨"User with employee ID " ++ eid ++ " not found", 404⟩ ∧
      (createCommittee sampleCreateReq [sampleUser] [] 7 none).saved = false ∧
      (createCommittee sampleCreateReq [sampleUser] [] 7 none).store = [] :=
  createCommittee_unresolvable_member_404 sampleCreateReq [sampleUser] [] 7
    none [.mstr "E100", .mstr "E404"] rfl (by decide) (by decide)
    ⟨"E404", by decide, by decide⟩

/-- C2: in both createCommittee and updateCommittee (for an existing
committee), a supplied non-empty member list containing an identifier that
is not a string or is empty/whitespace-only fails with a ValidationError
carrying status 400, and the outcome records no user-store lookups at all
for that member list. -/
theorem member_validation_precedes_user_lookups
    (users : List User) (store store2 : List Committee) (newId : Nat)
    (se se2 : Option AppError) (req : CreateReq) (b : UpdateBody) (cid : Nat)
    (ms ms2 : List MemberInput) :
    (req.body.members = some ms → 0 < ms.length →
      (ms.map resolveId).all isValidId = false →
      (createCommittee req users store newId se).result =
          .error ⟨"All member IDs must be non-empty strings", 400⟩ ∧
        (createCommittee req users store newId se).userLookups = []) ∧
    (b.members = some ms2 → 0 < ms2.length →
      (ms2.map resolveId).all isValidId = false →
      (∃ c, store2.find? (fun x => x._id == cid) = some c) →
      (updateCommittee cid b users store2 se2).result =
          .error ⟨"All member IDs must be non-empty strings", 400⟩ ∧
        (updateCommittee cid b users store2 se2).userLookups = []) := by
  constructor
  · intro hm hne hbad
    have hstep : createMemberStep users req.body =
        (.error ⟨"All member IDs must be non-empty strings", 400⟩, []) := by
      simp [createMemberStep, hm, hne, processMembers, hbad]
    simp [createCommittee, hstep]
  · rintro hm hne hbad ⟨c, hc⟩
    have hstep : updateMemberStep users b =
        (.error ⟨"All member IDs must be non-empty strings", 400⟩, []) := by
      simp [updateMemberStep, hm, hne, processMembers, hbad, Except.map]
    simp [updateCommittee, hc, hstep]

/-- Witness for C2 at concrete requests: a create request whose member list
holds a whitespace-only id, and an update of an existing committee whose
member list holds an object without a usable employeeId field. -/
theorem member_validation_precedes_user_lookups_witness :
    ((createCommittee
        { body := { sampleCreateBody with members := some [.mstr "  "] },
          file := some sampleFile, userId := 9 } [sampleUser] [] 7 none).result =
        .error ⟨"All member IDs must be non-empty strings", 400⟩ ∧
      (createCommittee
        { body := { sampleCreateBody with members := some [.mstr "  "] },
          file := some sampleFile, userId := 9 }
          [sampleUser] [] 7 none).userLookups = []) ∧
    ((updateCommittee 5 { emptyUpdateBody with members := some [.mobj none] }
        [sampleUser] [sampleCommittee] none).result =
        .error ⟨"All member IDs must be non-empty strings", 400⟩ ∧
      (updateCommittee 5 { emptyUpdateBody with members := some [.mobj none] }
        [sampleUser] [sampleCommittee] none).userLookups = []) :=
  ⟨(member_validation_precedes_user_lookups [sampleUser] [] [sampleCommittee] 7
      none none
      { body := { sampleCreateBody with members := some [.mstr "  "] },
        file := some sampleFile, userId := 9 }
      { emptyUpdateBody with members := some [.mobj none] } 5
      [.mstr "  "] [.mobj none]).1 rfl (by decide) (by decide),
   (member_validation_precedes_user_lookups [sampleUser] [] [sampleCommittee] 7
      none none
      { body := { sampleCreateBody with members := some [.mstr "  "] },
        file := some sampleFile, userId := 9 }
      { emptyUpdateBody with members := some [.mobj none] } 5
      [.mstr "  "] [.mobj none]).2 rfl (by decide) (by decide)
      ⟨sampleCommittee, by decide⟩⟩

/-- C3: a request carrying a session token whose issued-at time precedes the
resolved user's last password change is rejected by the route guard with an
AuthError carrying status 401, whatever the token's signature validity and
expiry. -/
theorem protect_rejects_token_issued_before_password_change
    (t : Token) (cookieTok : Option Token) (users : List User) (u : User)
    (now : Nat) (hfind : findUserById users t.id = some u)
    (hch : changedPasswordAfter u t.iat = true) :
    ∃ e, protect (some t) cookieTok now users = .error e ∧
      e.statusCode = 401 := by
  cases hv : jwtVerify t now with
  | error m =>
    exact ⟨⟨"Invalid or expired token", 401⟩, by simp [protect, hv], rfl⟩
  | ok d =>
    obtain rfl : d = t := jwtVerify_ok_eq t now d hv
    exact ⟨⟨"Password changed - please log in again", 401⟩,
      by simp [protect, hv, hfind, hch], rfl⟩

/-- Witness for C3 at a concrete state: an unexpired, validly signed token
issued at time 5 for a user whose password changed at time 10. -/
theorem protect_rejects_token_issued_before_password_change_witness :
    ∃ e, protect (some { id := 1, iat := 5, exp := none, validSig := true })
        none 99 [sampleUser] = .error e ∧ e.statusCode = 401 :=
  protect_rejects_token_issued_before_password_change
    { id := 1, iat := 5, exp := none, validSig := true } none [sampleUser]
    sampleUser 99 (by decide) (by decide)

/-- C4 counterexample: a login request with a present email and a missing
password fails with status 400 (`Please provide email and password!`), not
401 as the claim states. -/
theorem login_missing_password_statusCode_400 :
    login (some "alice@example.com") none [sampleUser] 0 =
      .error ⟨"Please provide email and password!", 400⟩ ∧
    ¬ ∃ e, login (some "alice@example.com") none [sampleUser] 0 = .error e ∧
        e.statusCode = 401 := by
  refine ⟨rfl, ?_⟩
  rintro ⟨e, he, h401⟩
  have h0 : (Except.error ⟨"Please provide email and password!", 400⟩ :
      Except AppError AuthResponse) = .error e := he
  cases Except.error.inj h0
  exact absurd h401 (by decide)

/-- C4 amended: a login request missing the email or the password fails with
status 400; an unknown user, a password mismatch, and a deactivated account
each fail with status 401; in every failure case no session token is
issued. -/
theorem login_failure_behaviour (email password : Option String)
    (users : List User) (now : Nat) :
    ((strFalsy email || strFalsy password) = true →
      login email password users now =
        .error ⟨"Please provide email and password!", 400⟩) ∧
    ((strFalsy email || strFalsy password) = false →
      ∀ e, login email password users now = .error e →
        e.statusCode = 401) ∧
    (∀ e, login email password users now = .error e →
      loginIssuedToken (login email password users now) = none) := by
  refine ⟨?_, ?_, ?_⟩
  · intro h; simp [login, h]
  · intro h e he
    cases hf : findUserByEmail users (email.getD "") with
    | none =>
      simp [login, h, hf] at he
      simp [← he]
    | some u =>
      by_cases hp : correctPassword (password.getD "") u.password
      · by_cases ha : u.isActive
        · simp [login, h, hf, hp, ha] at he
        · simp [login, h, hf, hp, ha] at he
          simp [← he]
      · simp [login, h, hf, hp] at he
        simp [← he]
  · intro e he
    rw [he]
    rfl

/-- Witness for C4's amended claim at concrete requests: a missing password
gives 400, a wrong password gives 401, and the failed attempt issues no
token. -/
theorem login_failure_behaviour_witness :
    login (some "alice@example.com") none [sampleUser] 0 =
      .error ⟨"Please provide email and password!", 400⟩ ∧
    (⟨"Incorrect email or password", 401⟩ : AppError).statusCode = 401 ∧
    loginIssuedToken
      (login (some "alice@example.com") (some "bad") [sampleUser] 0) = none :=
  ⟨(login_failure_behaviour (some "alice@example.com") none [sampleUser] 0).1
      (by decide),
   (login_failure_behaviour (some "alice@example.com") (some "bad")
      [sampleUser] 0).2.1 (by decide) ⟨"Incorrect email or password", 401⟩ rfl,
   (login_failure_behaviour (some "alice@example.com") (some "bad")
      [sampleUser] 0).2.2 ⟨"Incorrect email or password", 401⟩ rfl⟩

/-- C5 counterexample: a create request with an uploaded file whose member
list fails validation propagates the 400 error with the stored file NOT
deleted — the `return next(...)` branch never reaches the catch-block
cleanup. -/
theorem createCommittee_validation_failure_keeps_file :
    (createCommittee
        { body := { sampleCreateBody with members := some [.mstr " "] },
          file := some sampleFile, userId := 9 }
        [sampleUser] [] 7 none).result =
      .error ⟨"All member IDs must be non-empty strings", 400⟩ ∧
    (createCommittee
        { body := { sampleCreateBody with members := some [.mstr " "] },
          file := some sampleFile, userId := 9 }
        [sampleUser] [] 7 none).fileDeleted = false :=
  ⟨rfl, rfl⟩

/-- C5 amended: the catch-block cleanup deletes the stored file only when
the try block throws (the store's save failure); the member-validation and
unresolvable-member failures return through `next(...)` and leave the
stored file in place. -/
theorem createCommittee_file_cleanup
    (req : CreateReq) (users : List User) (store : List Committee)
    (newId : Nat) (e : AppError) :
    (∀ err, (createCommittee req users store newId none).result = .error err →
      (createCommittee req users store newId none).fileDeleted = false) ∧
    (∀ snaps ls, createMemberStep users req.body = (.ok snaps, ls) →
      (createCommittee req users store newId (some e)).result = .error e ∧
      (createCommittee req users store newId (some e)).fileDeleted =
        req.file.isSome ∧
      (createCommittee req users store newId (some e)).saved = false) := by
  constructor
  · intro err herr
    cases h1 : (createMemberStep users req.body).1 with
    | error e2 => simp [createCommittee, h1]
    | ok snaps => simp [createCommittee, h1] at herr
  · intro snaps ls hstep
    have h1 : (createMemberStep users req.body).1 = .ok snaps := by
      rw [hstep]
    exact ⟨by simp [createCommittee, h1], by simp [createCommittee, h1],
      by simp [createCommittee, h1]⟩

/-- Witness for C5's amended claim: a validation failure leaves the file in
place, while a save failure on a memberless request with a file deletes
it. -/
theorem createCommittee_file_cleanup_witness :
    (createCommittee
        { body := { sampleCreateBody with members := some [.mstr " "] },
          file := some sampleFile, userId := 9 }
        [sampleUser] [] 7 none).fileDeleted = false ∧
    ((createCommittee
        { body := { sampleCreateBody with members := none },
          file := some sampleFile, userId := 9 }
        [] [] 7 (some ⟨"store write failed", 500⟩)).result =
        .error ⟨"store write failed", 500⟩ ∧
      (createCommittee
        { body := { sampleCreateBody with members := none },
          file := some sampleFile, userId := 9 }
        [] [] 7 (some ⟨"store write failed", 500⟩)).fileDeleted = true ∧
      (createCommittee
        { body := { sampleCreateBody with members := none },
          file := some sampleFile, userId := 9 }
        [] [] 7 (some ⟨"store write failed", 500⟩)).saved = false) :=
  ⟨(createCommittee_file_cleanup
      { body := { sampleCreateBody with members := some [.mstr " "] },
        file := some sampleFile, userId := 9 }
      [sampleUser] [] 7 ⟨"store write failed", 500⟩).1
      ⟨"All member IDs must be non-empty strings", 400⟩ rfl,
   (createCommittee_file_cleanup
      { body := { sampleCreateBody with members := none },
        file := some sampleFile, userId := 9 }
      [] [] 7 ⟨"store write failed", 500⟩).2 [] [] rfl⟩

/-- C6: member snapshots are point-in-time copies: an updateCommittee call
on a different committee id — run against ANY user store, in particular one
where the referenced User records have since changed, and with a member
list that may reference the same employee IDs — leaves every other stored
committee record, snapshot entries included, in the store unchanged. -/
theorem member_snapshots_point_in_time
    (store : List Committee) (c : Committee) (hc : c ∈ store) (cid : Nat)
    (hne : c._id ≠ cid) (b : UpdateBody) (users : List User)
    (se : Option AppError) :
    c ∈ (updateCommittee cid b users store se).store := by
  cases hf : store.find? (fun x => x._id == cid) with
  | none => simpa [updateCommittee, hf] using hc
  | some c0 =>
    cases h1 : (updateMemberStep users b).1 with
    | error e => simpa [updateCommittee, hf, h1] using hc
    | ok snaps =>
      cases se with
      | some e => simpa [updateCommittee, hf, h1] using hc
      | none =>
        simp only [updateCommittee, hf, h1]
        exact List.mem_map.mpr ⟨c, hc, by simp [hne]⟩

/-- Witness for C6: committee 5 keeps its snapshot of Alice although
committee 6 is re-resolved against a user store in which Alice was renamed
under the same employee ID. -/
theorem member_snapshots_point_in_time_witness :
    sampleCommittee ∈
      (updateCommittee 6 { emptyUpdateBody with members := some [.mstr "E100"] }
        [renamedUser] [sampleCommittee, otherCommittee] none).store :=
  member_snapshots_point_in_time [sampleCommittee, otherCommittee]
    sampleCommittee (by decide) 6 (by decide)
    { emptyUpdateBody with members := some [.mstr "E100"] } [renamedUser] none

/-- C7: a successful updateCommittee leaves the stored attached-file
descriptor (and the id and creator reference) exactly as before — any
formationLetter supplied in the body is ignored — keeps every whitelisted
field whose body entry is undefined unchanged, and applies the defined
ones. -/
theorem updateCommittee_ignores_file_field
    (cid : Nat) (b : UpdateBody) (users : List User) (store : List Committee)
    (se : Option AppError) (c c2 : Committee)
    (hfind : store.find? (fun x => x._id == cid) = some c)
    (hok : (updateCommittee cid b users store se).result = .ok c2) :
    c2.formationLetter = c.formationLetter ∧
    (∀ v, b.name = some v → c2.name = v) ∧
    c2._id = c._id ∧ c2.createdBy = c.createdBy ∧
    (b.name = none → c2.name = c.name) ∧
    (b.purpose = none → c2.purpose = c.purpose) ∧
    (b.formationDate = none → c2.formationDate = c.formationDate) ∧
    (b.specificationSubmissionDate = none →
      c2.specificationSubmissionDate = c.specificationSubmissionDate) ∧
    (b.reviewDate = none → c2.reviewDate = c.reviewDate) ∧
    (b.schedule = none → c2.schedule = c.schedule) ∧
    (b.members = none → c2.members = c.members) ∧
    (b.shouldNotify = none → c2.shouldNotify = c.shouldNotify) ∧
    (b.approvalStatus = none → c2.approvalStatus = c.approvalStatus) ∧
    (∀ v, b.approvalStatus = some v → c2.approvalStatus = some v) := by
  cases h1 : (updateMemberStep users b).1 with
  | error e => simp [updateCommittee, hfind, h1] at hok
  | ok snaps =>
    cases se with
    | some e => simp [updateCommittee, hfind, h1] at hok
    | none =>
      simp [updateCommittee, hfind, h1] at hok
      subst hok
      refine ⟨rfl, ?_, rfl, rfl, ?_, ?_, ?_, ?_, ?_, ?_, ?_, ?_, ?_, ?_⟩
      · intro v hv; simp [applyUpdates, hv]
      · intro hv; simp [applyUpdates, hv]
      · intro hv; simp [applyUpdates, hv]
      · intro hv; simp [applyUpdates, hv]
      · intro hv; simp [applyUpdates, hv]
      · intro hv; simp [applyUpdates, hv]
      · intro hv; simp [applyUpdates, hv]
      · intro hv
        have hsnaps : snaps = none := by
          have h2 : (updateMemberStep users b).1 = .ok none := by
            simp [updateMemberStep, hv]
          rw [h1] at h2
          exact Except.ok.inj h2
        simp [applyUpdates, hsnaps]
      · intro hv; simp [applyUpdates, hv]
      · intro hv; simp [applyUpdates, hv]
      · intro v hv; simp [applyUpdates, hv]

/-- The update body used by the C7 witness: renames the committee, sets an
approval status, and tries to smuggle in a replacement formationLetter. -/
def renameUpdateBody : UpdateBody :=
  { emptyUpdateBody with
      name := some "Renamed", approvalStatus := some "approved",
      formationLetter := some { sampleFile with filename := "new.pdf" } }

/-- Witness for C7: an update that renames committee 5, sets an approval
status and tries to smuggle in a new formationLetter leaves the stored file
descriptor untouched and applies the whitelisted name. -/
theorem updateCommittee_ignores_file_field_witness :
    (applyUpdates sampleCommittee renameUpdateBody none).formationLetter =
      sampleCommittee.formationLetter ∧
    (applyUpdates sampleCommittee renameUpdateBody none).name = "Renamed" :=
  ⟨(updateCommittee_ignores_file_field 5 renameUpdateBody [] [sampleCommittee]
      none sampleCommittee (applyUpdates sampleCommittee renameUpdateBody none)
      rfl rfl).1,
   (updateCommittee_ignores_file_field 5 renameUpdateBody [] [sampleCommittee]
      none sampleCommittee (applyUpdates sampleCommittee renameUpdateBody none)
      rfl rfl).2.1 "Renamed" rfl⟩

/-- C8: deleting one's own user account is rejected with a 403 and the user
store is untouched; deleting an existing other user succeeds with response
status 204 and removes the record. -/
theorem deleteUser_self_forbidden_other_deleted
    (userId : Nat) (reqUser : User) (users : List User) (u : User)
    (hfind : findUserById users userId = some u) :
    (u._id = reqUser._id →
      (deleteUser userId reqUser users).1 =
        .error ⟨"You cannot delete your own account", 403⟩ ∧
      (deleteUser userId reqUser users).2 = users) ∧
    (u._id ≠ reqUser._id →
      (deleteUser userId reqUser users).1 = .ok 204 ∧
      u ∉ (deleteUser userId reqUser users).2) := by
  have hu : u._id = userId := by
    have h := List.find?_some hfind
    simpa using h
  constructor
  · intro hself
    constructor <;> simp [deleteUser, hfind, hself]
  · intro hne
    refine ⟨by simp [deleteUser, hfind, hne], ?_⟩
    simp only [deleteUser, hfind]
    rw [if_neg (by simp [hne])]
    simp [List.mem_filter, hu]

/-- Witness for C8: in a store with Alice (id 1) and admin Bob (id 2), Bob
deleting himself is rejected with 403, and Bob deleting Alice yields 204
with Alice removed. -/
theorem deleteUser_self_forbidden_other_deleted_witness :
    ((deleteUser 2 adminUser [sampleUser, adminUser]).1 =
        .error ⟨"You cannot delete your own account", 403⟩ ∧
      (deleteUser 2 adminUser [sampleUser, adminUser]).2 =
        [sampleUser, adminUser]) ∧
    ((deleteUser 1 adminUser [sampleUser, adminUser]).1 = .ok 204 ∧
      sampleUser ∉ (deleteUser 1 adminUser [sampleUser, adminUser]).2) :=
  ⟨(deleteUser_self_forbidden_other_deleted 2 adminUser
      [sampleUser, adminUser] adminUser (by decide)).1 rfl,
   (deleteUser_self_forbidden_other_deleted 1 adminUser
      [sampleUser, adminUser] sampleUser (by decide)).2 (by decide)⟩

/-- C9: the user created by register always has isActive = true, whatever
isActive value the request body carries — including an explicit false —
because `req.body.isActive || true` is always truthy. -/
theorem register_isActive_always_true (b : RegisterBody) (newId now : Nat) :
    (register b newId now).1.isActive = true := by
  cases hb : b.isActive with
  | none => simp [register, registerUserDoc, jsOrBool, hb]
  | some v => cases v <;> simp [register, registerUserDoc, jsOrBool, hb]

/-- C10: every token issued through createSendToken — register, login,
resetPassword and updatePassword all respond through it — carries no exp
claim, so `jwt.verify` accepts it at every later time and the route guard
never rejects it as expired; the one-day expiry sits only on the cookie;
and for a resolvable user the guard's verdict on such a token is decided
solely by the password-change-timestamp check.  The register and login
conjuncts tie the modelled issuance paths to createSendToken. -/
theorem createSendToken_no_expiry_claim
    (u : User) (statusCode now checkTime : Nat) (users : List User)
    (u2 : User) (rb : RegisterBody) (newId regNow : Nat)
    (em pw : Option String) (users2 : List User) (loginNow : Nat)
    (hfind : findUserById users u._id = some u2) :
    (createSendToken u statusCode now).token.exp = none ∧
    jwtVerify (createSendToken u statusCode now).token checkTime =
      .ok (createSendToken u statusCode now).token ∧
    (createSendToken u statusCode now).cookieExpires =
      now + 24 * 60 * 60 * 1000 ∧
    (protect (some (createSendToken u statusCode now).token) none checkTime
        users =
      if changedPasswordAfter u2 now then
        .error ⟨"Password changed - please log in again", 401⟩
      else .ok u2) ∧
    (register rb newId regNow).2 =
      createSendToken (registerUserDoc rb newId) 201 regNow ∧
    (∀ resp, login em pw users2 loginNow = .ok resp →
      resp.token.exp = none) := by
  refine ⟨rfl, rfl, rfl, ?_, rfl, ?_⟩
  · have hfind2 : List.find? (fun x => x._id == u._id) users = some u2 := hfind
    by_cases hch : changedPasswordAfter u2 now <;>
      simp [protect, jwtVerify, createSendToken, findUserById, hfind2, hch]
  · intro resp hresp
    unfold login at hresp
    split at hresp
    · cases hresp
    · split at hresp
      · cases hresp
      · split at hresp
        · cases hresp
        · split at hresp
          · cases hresp
          · cases Except.ok.inj hresp
            rfl

/-- Witness for C10: the token issued to Alice at time 50 has no expiry
claim, verifies at the distant time 999999, and the guard accepts it since
her password change (time 10) precedes issuance; a concrete successful
login also issues an expiry-free token. -/
theorem createSendToken_no_expiry_claim_witness :
    (createSendToken sampleUser 200 50).token.exp = none ∧
    jwtVerify (createSendToken sampleUser 200 50).token 999999 =
      .ok (createSendToken sampleUser 200 50).token ∧
    (createSendToken sampleUser 200 50).cookieExpires =
      50 + 24 * 60 * 60 * 1000 ∧
    (protect (some (createSendToken sampleUser 200 50).token) none 999999
        [sampleUser] =
      if changedPasswordAfter sampleUser 50 then
        .error ⟨"Password changed - please log in again", 401⟩
      else .ok sampleUser) ∧
    (register
        { name := some "Bob", email := some "bob@example.com",
          password := some "pw2", role := some "staff",
          employeeId := some "E200", department := some "IT",
          phoneNumber := some "556", designation := some "Clerk",
          isActive := some false, otpEnabled := none } 3 60).2 =
      createSendToken
        (registerUserDoc
          { name := some "Bob", email := some "bob@example.com",
            password := some "pw2", role := some "staff",
            employeeId := some "E200", department := some "IT",
            phoneNumber := some "556", designation := some "Clerk",
            isActive := some false, otpEnabled := none } 3) 201 60 ∧
    (∀ resp,
      login (some "alice@example.com") (some "pw") [sampleUser] 7 = .ok resp →
        resp.token.exp = none) :=
  createSendToken_no_expiry_claim sampleUser 200 50 999999 [sampleUser]
    sampleUser
    { name := some "Bob", email := some "bob@example.com",
      password := some "pw2", role := some "staff",
      employeeId := some "E200", department := some "IT",
      phoneNumber := some "556", designation := some "Clerk",
      isActive := some false, otpEnabled := none } 3 60
    (some "alice@example.com") (some "pw") [sampleUser] 7 (by decide)

end Tender
